import Mathlib

/-!
Verification of `BruteLoops/config.py` (the `Config` class of the
brute_loops repository): a shallow embedding of `Config.__init__`,
`Config.configure_logging` and `Config.validate`, followed by theorems
about the validation and logging behaviour.

Python dynamic values are modelled by `PyVal`; container values are
abstracted by their size (only truthiness and exact class membership of
containers are consulted by the embedded code).  Mutation of `self` is
modelled by explicit state passing: `validate` returns the state the
`Config` object holds after the call, together with the raised message
(if any), whether the SQLite schema-creation step ran, and the logger
configuration produced by `configure_logging`.
-/

/-- The exact class of a Python value, as compared by `x.__class__ == int`
and `type(x) == dict` in `Config.validate`.  In Python, `True.__class__`
is `bool`, not `int`, so booleans are a distinct class. -/
inductive PyClass where
  | noneType
  | boolC
  | intC
  | strC
  | listC
  | dictC
  | funcC
  | callbackC
  | jitterC
  deriving DecidableEq

/-- A Python value as seen by `config.py`.  Containers (`pyList`,
`pyDict`) are abstracted by their element count, which determines their
truthiness; `pyFunc` is a callable identified by a tag; `callbackObj`
is the `Callback(callback, jitter)` wrapper object built at line 166 of
`config.py`; `jitterObj` is a `Jitter` instance identified by a tag. -/
inductive PyVal where
  | pyNone
  | pyBool (b : Bool)
  | pyInt (n : Int)
  | pyStr (s : String)
  | pyList (size : Nat)
  | pyDict (size : Nat)
  | pyFunc (tag : Nat)
  | callbackObj (cb jit : PyVal)
  | jitterObj (tag : Nat)
  deriving DecidableEq

/-- Python truthiness (`bool(x)`), as used by `assert self.process_count`,
`if self.exception_handlers:`, `if self.log_valid or ...`, etc.
`None` and empty containers are falsy; objects are truthy. -/
def truthy : PyVal → Bool
  | .pyNone => false
  | .pyBool b => b
  | .pyInt n => n != 0
  | .pyStr s => s != ""
  | .pyList size => size != 0
  | .pyDict size => size != 0
  | .pyFunc _ => true
  | .callbackObj _ _ => true
  | .jitterObj _ => true

/-- The exact class of a value (`x.__class__`, `type(x)`). -/
def pyClassOf : PyVal → PyClass
  | .pyNone => .noneType
  | .pyBool _ => .boolC
  | .pyInt _ => .intC
  | .pyStr _ => .strC
  | .pyList _ => .listC
  | .pyDict _ => .dictC
  | .pyFunc _ => .funcC
  | .callbackObj _ _ => .callbackC
  | .jitterObj _ => .jitterC

/-- The `sessionmaker` produced at lines 174-182 of `config.py`,
abstracted by the database file it is bound to. -/
structure SessionMaker where
  db : String
  deriving DecidableEq

/-- The state of a `Config` object (`Config.__init__`, lines 81-96).
`session_maker` is `Option.none` while the attribute is absent (it is
only assigned at line 182 of `validate`). -/
structure Config where
  process_count : PyVal
  authentication_callback : PyVal
  authentication_jitter : PyVal
  max_auth_jitter : PyVal
  max_auth_tries : PyVal
  stop_on_valid : PyVal
  db_file : PyVal
  log_valid : PyVal
  log_invalid : PyVal
  log_general : PyVal
  log_file : PyVal
  log_stdout : PyVal
  log_stderr : PyVal
  exception_handlers : PyVal
  log_level : Nat
  validated : Bool
  session_maker : Option SessionMaker
  deriving DecidableEq

/-- A `Config()` built with no arguments: the default values of
`Config.__init__` (lines 65-96). -/
def defaultConfig : Config where
  process_count := .pyInt 1
  authentication_callback := .pyNone
  authentication_jitter := .pyNone
  max_auth_jitter := .pyNone
  max_auth_tries := .pyInt 1
  stop_on_valid := .pyBool false
  db_file := .pyNone
  log_valid := .pyBool false
  log_invalid := .pyBool false
  log_general := .pyBool false
  log_file := .pyBool false
  log_stdout := .pyBool false
  log_stderr := .pyBool false
  exception_handlers := .pyDict 0
  log_level := 90
  validated := false
  session_maker := Option.none

/-- Modelled from the spec: `BruteLoops.logging.VALID_CREDENTIALS`, the
numeric level of valid-credential records, is defined in
`BruteLoops/logging.py`, which is absent from the sources.  Only the
identity of the three level constants matters to the claims; they are
modelled as distinct values below the disabled level 90, ordered so that
more inclusive levels are lower. -/
def VALID_CREDENTIALS : Nat := 30

/-- Modelled from the spec: `BruteLoops.logging.CREDENTIAL_EVENTS`
(all authentication records, valid and invalid); see
`VALID_CREDENTIALS`. -/
def CREDENTIAL_EVENTS : Nat := 20

/-- Modelled from the spec: `BruteLoops.logging.GENERAL_EVENTS`
(all relevant events); see `VALID_CREDENTIALS`. -/
def GENERAL_EVENTS : Nat := 10

/-- Where a logging handler sends records: a `FileHandler` on the
`log_file` value, or a `StreamHandler` on stdout or stderr. -/
inductive Dest where
  | file (v : PyVal)
  | toStdout
  | toStderr
  deriving DecidableEq

/-- A logging handler attached to the `brute_logger`: its destination,
the level set on it by `handler.setLevel` (`Option.none` when no level
was set on the handler itself), and whether a formatter was set. -/
structure Handler where
  dest : Dest
  level : Option Nat
  hasFormatter : Bool
  deriving DecidableEq

/-- The `brute_logger` as configured by `configure_logging`: the
handlers added to it, in order, and the level set by
`logger.setLevel`. -/
structure Logger where
  handlers : List Handler
  level : Nat
  deriving DecidableEq

/-- Lines 104-106 of `config.py`: the three sequential overwrites of
`self.log_level` (only reached when at least one level flag is truthy). -/
def chosenLevel (c : Config) : Nat :=
  let l1 := if truthy c.log_valid then VALID_CREDENTIALS else c.log_level
  let l2 := if truthy c.log_invalid then CREDENTIAL_EVENTS else l1
  if truthy c.log_general then GENERAL_EVENTS else l2

/-- `Config.configure_logging` (lines 98-136): returns the mutated
`Config` (its `log_level`) and the resulting `brute_logger` state.
The logger starts with no handlers (`logging.getLogger` on a fresh
name); handlers are appended file, stdout, stderr in that order, each
given the formatter and level, or a single formatter-only stdout
handler when no destination flag is truthy; with no level flag truthy,
only `logger.setLevel(self.log_level)` runs. -/
def configure_logging (c : Config) : Config × Logger :=
  if truthy c.log_valid || truthy c.log_invalid || truthy c.log_general then
    let lv := chosenLevel c
    let c2 := { c with log_level := lv }
    if truthy c.log_file || truthy c.log_stdout || truthy c.log_stderr then
      let hs :=
        (if truthy c.log_file then
          [({ dest := .file c.log_file, level := some lv, hasFormatter := true } : Handler)]
         else [])
        ++ (if truthy c.log_stdout then
          [({ dest := .toStdout, level := some lv, hasFormatter := true } : Handler)]
         else [])
        ++ (if truthy c.log_stderr then
          [({ dest := .toStderr, level := some lv, hasFormatter := true } : Handler)]
         else [])
      (c2, { handlers := hs, level := lv })
    else
      (c2, { handlers := [{ dest := .toStdout, level := Option.none, hasFormatter := true }],
             level := lv })
  else
    (c, { handlers := [], level := c.log_level })

/-- Lines 143-146 of `validate`: `assert self.process_count` followed by
`assert self.process_count.__class__ == int`.  Returns the message of
the first failing assertion, or `Option.none` when both pass. -/
def processCountCheck (c : Config) : Option String :=
  if truthy c.process_count then
    if pyClassOf c.process_count = PyClass.intC then Option.none
    else some "Process count must be an integer value"
  else some "A Config object requires a process_count"

/-- Lines 143-151 of `validate`: the four required-parameter assertions,
in order (process count truthy, process count of class int, db_file
truthy, callback truthy). -/
def requiredChecks (c : Config) : Option String :=
  match processCountCheck c with
  | some m => some m
  | Option.none =>
    if truthy c.db_file then
      if truthy c.authentication_callback then Option.none
      else some "A callback must be set on the Config object"
    else some "A path to a SQLite database is required."

/-- Lines 153-161 of `validate`: when `exception_handlers` is truthy,
assert that its exact type is `dict`. -/
def handlerCheck (c : Config) : Option String :=
  if truthy c.exception_handlers then
    if pyClassOf c.exception_handlers = PyClass.dictC then Option.none
    else some "exception_handlers is intended to be a dictionary"
  else Option.none

/-- The observable result of a call to `Config.validate`: the raised
message if the call raised, the state of the `Config` object after the
call (Python keeps mutations made before a raise), whether the
schema-creation step (`sql.Base.metadata.create_all`, line 180) ran,
and the logger produced by `configure_logging` (when reached). -/
structure VResult where
  err : Option String
  cfg : Config
  createdSchema : Bool
  logger : Option Logger

/-- `Config.validate` (lines 138-186), against a filesystem given as the
list of existing paths.  After the assertions, the callback is wrapped
(line 166); then `create_engine` evaluates `'sqlite:///' + self.db_file`,
which raises `TypeError` unless `db_file` is a string — at that point the
callback has already been replaced; otherwise the schema is created only
when the db_file path does not yet exist (lines 179-180), the
`session_maker` is stored, logging is configured, and `validated` is set. -/
def validate (c : Config) (fs : List String) : VResult :=
  match requiredChecks c with
  | some m => { err := some m, cfg := c, createdSchema := false, logger := Option.none }
  | Option.none =>
    match handlerCheck c with
    | some m => { err := some m, cfg := c, createdSchema := false, logger := Option.none }
    | Option.none =>
      let c1 := { c with authentication_callback :=
                    PyVal.callbackObj c.authentication_callback c.authentication_jitter }
      match c.db_file with
      | .pyStr path =>
        let c2 := { c1 with session_maker := some { db := path } }
        let pr := configure_logging c2
        { err := Option.none,
          cfg := { pr.1 with validated := true },
          createdSchema := !(fs.contains path),
          logger := some pr.2 }
      | _ =>
        { err := some "TypeError: can only concatenate str to str",
          cfg := c1, createdSchema := false, logger := Option.none }

/-- A minimal `Config` that passes validation: the default constructor
with a database path and a callable set. -/
def okConfig : Config :=
  { defaultConfig with
      db_file := .pyStr "creds.db"
      authentication_callback := .pyFunc 0 }

/-- `validate` collapses to a pure failure when one of the four
required-parameter assertions fails: the raised message is the failing
assertion and the object is untouched. -/
theorem validate_requiredFail (c : Config) (fs : List String) (m : String)
    (h : requiredChecks c = some m) :
    validate c fs =
      { err := some m, cfg := c, createdSchema := false, logger := Option.none } := by
  unfold validate
  rw [h]

/-- `validate` collapses to a pure failure when the required assertions
pass but the exception-handler assertion fails. -/
theorem validate_handlerFail (c : Config) (fs : List String) (m : String)
    (h1 : requiredChecks c = Option.none) (h2 : handlerCheck c = some m) :
    validate c fs =
      { err := some m, cfg := c, createdSchema := false, logger := Option.none } := by
  unfold validate
  rw [h1, h2]

/-- Claim C1: when the authentication callback, the db_file, or the
process_count is unset (None, its constructor default), `validate`
raises one of the required-parameter assertions and the `Config` object
is left completely untouched — in particular it is never marked
validated and no store or attempt dispatch is reached. -/
theorem validate_fails_on_unset (c : Config) (fs : List String)
    (h : c.authentication_callback = PyVal.pyNone ∨ c.db_file = PyVal.pyNone ∨
         c.process_count = PyVal.pyNone) :
    (validate c fs).err.isSome = true ∧ (validate c fs).cfg = c := by
  have hr : (requiredChecks c).isSome = true := by
    rcases h with h | h | h
    · unfold requiredChecks
      cases hp : processCountCheck c with
      | some m => rfl
      | none =>
        simp only [h, truthy]
        split <;> rfl
    · unfold requiredChecks
      cases hp : processCountCheck c with
      | some m => rfl
      | none => simp [h, truthy]
    · unfold requiredChecks processCountCheck
      rw [h]
      simp [truthy]
  obtain ⟨m, hm⟩ := Option.isSome_iff_exists.mp hr
  rw [validate_requiredFail c fs m hm]
  exact ⟨rfl, rfl⟩

/-- Witness for C1: the default-constructed `Config` (callback, db_file
unset) fails validation untouched. -/
theorem validate_fails_on_unset_witness :
    (validate defaultConfig []).err.isSome = true ∧
    (validate defaultConfig []).cfg = defaultConfig :=
  validate_fails_on_unset defaultConfig [] (Or.inl rfl)

/-- Claim C10: a `Config()` built with no arguments has process_count 1,
max_auth_tries 1, stop_on_valid False, an empty exception_handlers
dict, all logging flags falsy, log_level 90, validated False, and no
db_file, callback or session_maker — and `validate` on it always
raises, whatever the filesystem contains. -/
theorem defaultConfig_invalid :
    defaultConfig.process_count = PyVal.pyInt 1 ∧
    defaultConfig.max_auth_tries = PyVal.pyInt 1 ∧
    defaultConfig.stop_on_valid = PyVal.pyBool false ∧
    defaultConfig.exception_handlers = PyVal.pyDict 0 ∧
    truthy defaultConfig.log_valid = false ∧
    truthy defaultConfig.log_invalid = false ∧
    truthy defaultConfig.log_general = false ∧
    truthy defaultConfig.log_file = false ∧
    truthy defaultConfig.log_stdout = false ∧
    truthy defaultConfig.log_stderr = false ∧
    defaultConfig.log_level = 90 ∧
    defaultConfig.validated = false ∧
    defaultConfig.db_file = PyVal.pyNone ∧
    defaultConfig.authentication_callback = PyVal.pyNone ∧
    defaultConfig.session_maker = Option.none ∧
    ∀ fs : List String, (validate defaultConfig fs).err.isSome = true := by
  refine ⟨rfl, rfl, rfl, rfl, rfl, rfl, rfl, rfl, rfl, rfl, rfl, rfl, rfl, rfl, rfl, ?_⟩
  intro fs
  rfl

/-- Counterexample to claim C2 as stated: a negative worker count is not
rejected.  `process_count = -1` is truthy and of exact class `int`, so
both process-count assertions pass and this otherwise-complete
configuration validates successfully. -/
theorem negative_process_count_validates :
    ({ okConfig with process_count := .pyInt (-1) } : Config).process_count
        = PyVal.pyInt (-1) ∧
    (validate { okConfig with process_count := .pyInt (-1) } []).err = Option.none ∧
    (validate { okConfig with process_count := .pyInt (-1) } []).cfg.validated = true :=
  ⟨rfl, rfl, rfl⟩

/-- Claim C2 as amended: the worker-count check of `validate` passes
exactly when process_count is a nonzero value of exact class `int`
(negative integers pass; zero, None, and non-int values fail), and when
the check fails, `validate` raises with that message. -/
theorem processCountCheck_pass_iff (c : Config) (fs : List String) :
    (processCountCheck c = Option.none ↔
      ∃ n : Int, c.process_count = PyVal.pyInt n ∧ n ≠ 0) ∧
    (∀ m, processCountCheck c = some m → (validate c fs).err = some m) := by
  constructor
  · cases hc : c.process_count <;>
      simp [processCountCheck, truthy, pyClassOf, hc]
    all_goals (split <;> simp)
  · intro m hm
    have hr : requiredChecks c = some m := by
      unfold requiredChecks
      rw [hm]
    rw [validate_requiredFail c fs m hr]

/-- Witness for C2 (amended): a string-valued process_count makes
`validate` raise the integer-class assertion. -/
theorem processCountCheck_pass_iff_witness :
    (validate { okConfig with process_count := .pyStr "two" } []).err
        = some "Process count must be an integer value" :=
  (processCountCheck_pass_iff { okConfig with process_count := .pyStr "two" } []).2
    "Process count must be an integer value" rfl

/-- Counterexample to claim C3 as stated: `validate` never inspects
max_auth_tries, so a configuration with `max_auth_tries = 0` (not a
positive integer) validates successfully. -/
theorem zero_max_auth_tries_validates :
    ({ okConfig with max_auth_tries := .pyInt 0 } : Config).max_auth_tries
        = PyVal.pyInt 0 ∧
    (validate { okConfig with max_auth_tries := .pyInt 0 } []).err = Option.none ∧
    (validate { okConfig with max_auth_tries := .pyInt 0 } []).cfg.validated = true :=
  ⟨rfl, rfl, rfl⟩

/-- Claim C3 as amended: `validate` does not check max_auth_tries at
all — replacing it by any value whatsoever changes neither whether
`validate` raises nor the resulting validated flag. -/
theorem validate_ignores_max_auth_tries (c : Config) (fs : List String) (m : PyVal) :
    (validate { c with max_auth_tries := m } fs).err = (validate c fs).err ∧
    (validate { c with max_auth_tries := m } fs).cfg.validated
        = (validate c fs).cfg.validated := by
  have h1 : requiredChecks { c with max_auth_tries := m } = requiredChecks c := rfl
  have h2 : handlerCheck { c with max_auth_tries := m } = handlerCheck c := rfl
  have h3 : ({ c with max_auth_tries := m } : Config).db_file = c.db_file := rfl
  unfold validate
  rw [h1, h2, h3]
  cases hr : requiredChecks c with
  | some m' => exact ⟨rfl, rfl⟩
  | none =>
    cases hh : handlerCheck c with
    | some m' => exact ⟨rfl, rfl⟩
    | none => cases hd : c.db_file <;> exact ⟨rfl, rfl⟩

/-- Counterexample to claim C4 as stated: not every raising `validate`
call leaves the object unchanged.  With a truthy non-string db_file
(the integer 1) all assertions pass, the callback is wrapped at line
166, and only then does `create_engine` raise a TypeError on
`sqlite:/// + db_file` — so `validate` raises with the callback already
replaced (though validated stays False and no session_maker is set). -/
theorem validate_raises_after_wrapping :
    (validate { okConfig with db_file := .pyInt 1 } []).err.isSome = true ∧
    (validate { okConfig with db_file := .pyInt 1 } []).cfg.authentication_callback
        ≠ ({ okConfig with db_file := .pyInt 1 } : Config).authentication_callback ∧
    (validate { okConfig with db_file := .pyInt 1 } []).cfg.validated = false ∧
    (validate { okConfig with db_file := .pyInt 1 } []).cfg.session_maker = Option.none :=
  ⟨rfl, by decide, rfl, rfl⟩

/-- Claim C4 as amended: when `validate` raises at one of the
assertions (required parameters or handler table), the object is left
completely unchanged; on every call the validated flag ends up true iff
it already was or the call completed without raising; and a raising
call never sets session_maker and never marks the object validated.
Only the callback wrapping can survive a raise, and only when the raise
happens later, at SQLite engine creation (truthy non-string db_file). -/
theorem validate_atomicity (c : Config) (fs : List String) :
    ((requiredChecks c).isSome = true ∨ (handlerCheck c).isSome = true →
        (validate c fs).cfg = c) ∧
    (validate c fs).cfg.validated = (c.validated || (validate c fs).err.isNone) ∧
    ((validate c fs).err.isSome = true →
        (validate c fs).cfg.session_maker = c.session_maker ∧
        (validate c fs).cfg.validated = c.validated) := by
  unfold validate
  cases hr : requiredChecks c with
  | some m => simp
  | none =>
    cases hh : handlerCheck c with
    | some m => simp
    | none =>
      cases hd : c.db_file <;> simp [hd]

/-- Witness for C4 (amended): the default-constructed `Config` fails a
required assertion and comes back from `validate` untouched. -/
theorem validate_atomicity_witness :
    (validate defaultConfig []).cfg = defaultConfig :=
  (validate_atomicity defaultConfig []).1 (Or.inl rfl)

/-- Claim C5: the schema-creation step of `validate` runs only when the
db_file path does not already exist; with an existing db_file the store
is opened as-is, so records of a prior run are preserved. -/
theorem validate_preserves_existing_store (c : Config) (fs : List String) (s : String)
    (hdb : c.db_file = PyVal.pyStr s) :
    (fs.contains s = true → (validate c fs).createdSchema = false) ∧
    ((validate c fs).createdSchema = true → fs.contains s = false) := by
  unfold validate
  cases hr : requiredChecks c with
  | some m => simp
  | none =>
    cases hh : handlerCheck c with
    | some m => simp
    | none =>
      rw [hdb]
      constructor
      · intro h
        simpa using h
      · intro h
        simpa using h

/-- Witness for C5: validating against a filesystem that already holds
the database file does not re-create the schema. -/
theorem validate_preserves_existing_store_witness :
    (validate okConfig ["creds.db"]).createdSchema = false :=
  (validate_preserves_existing_store okConfig ["creds.db"] "creds.db" rfl).1 rfl

/-- Claim C6: a truthy exception_handlers value whose exact type is not
dict makes `validate` raise, and any value of exact type dict (the
empty default included, which skips the check by falsiness) passes the
handler-table check. -/
theorem exception_handlers_must_be_dict (c : Config) (fs : List String) :
    (truthy c.exception_handlers = true → pyClassOf c.exception_handlers ≠ PyClass.dictC →
        (validate c fs).err.isSome = true) ∧
    (pyClassOf c.exception_handlers = PyClass.dictC → handlerCheck c = Option.none) := by
  constructor
  · intro ht hc
    cases hr : requiredChecks c with
    | some m => rw [validate_requiredFail c fs m hr]; rfl
    | none =>
      have hh : handlerCheck c = some "exception_handlers is intended to be a dictionary" := by
        unfold handlerCheck
        rw [ht]
        simp [hc]
      rw [validate_handlerFail c fs _ hr hh]
      rfl
  · intro hc
    unfold handlerCheck
    simp [hc]

/-- Witness for C6: a nonempty list as exception_handlers makes
`validate` raise. -/
theorem exception_handlers_must_be_dict_witness :
    (validate { okConfig with exception_handlers := .pyList 1 } []).err.isSome = true :=
  (exception_handlers_must_be_dict { okConfig with exception_handlers := .pyList 1 } []).1
    rfl (by decide)

/-- `configure_logging` touches only the log_level of the `Config`: the
callback, the backoff jitter, the session_maker and the validated flag
pass through unchanged. -/
theorem configure_logging_cfg_fields (c : Config) :
    (configure_logging c).1.authentication_callback = c.authentication_callback ∧
    (configure_logging c).1.max_auth_jitter = c.max_auth_jitter ∧
    (configure_logging c).1.session_maker = c.session_maker ∧
    (configure_logging c).1.validated = c.validated := by
  unfold configure_logging
  split
  · split
    · exact ⟨rfl, rfl, rfl, rfl⟩
    · exact ⟨rfl, rfl, rfl, rfl⟩
  · exact ⟨rfl, rfl, rfl, rfl⟩

/-- Claim C7: on every successful `validate`, the wrapped callback
bundles exactly the original callback with authentication_jitter (the
post-attempt throttle), while max_auth_jitter (the post-threshold
backoff policy) stays in its own field, unchanged. -/
theorem validate_keeps_jitters_independent (c : Config) (fs : List String)
    (h : (validate c fs).err = Option.none) :
    (validate c fs).cfg.authentication_callback
        = PyVal.callbackObj c.authentication_callback c.authentication_jitter ∧
    (validate c fs).cfg.max_auth_jitter = c.max_auth_jitter := by
  unfold validate at h ⊢
  cases hr : requiredChecks c with
  | some m => rw [hr] at h; simp at h
  | none =>
    rw [hr] at h
    cases hh : handlerCheck c with
    | some m => rw [hh] at h; simp at h
    | none =>
      rw [hh] at h
      cases hd : c.db_file <;> rw [hd] at h <;> simp at h
      case pyStr s =>
        exact ⟨((configure_logging_cfg_fields _).1).trans rfl,
               ((configure_logging_cfg_fields _).2.1).trans rfl⟩

/-- A successfully validating `Config` with two distinct jitter
objects, used to witness C7. -/
def jitConfig : Config :=
  { okConfig with authentication_jitter := .jitterObj 1, max_auth_jitter := .jitterObj 2 }

/-- Witness for C7: with distinct attempt and threshold jitters, the
wrapper receives the attempt jitter and the threshold jitter stays put. -/
theorem validate_keeps_jitters_independent_witness :
    (validate jitConfig []).cfg.authentication_callback
        = PyVal.callbackObj (.pyFunc 0) (.jitterObj 1) ∧
    (validate jitConfig []).cfg.max_auth_jitter = PyVal.jitterObj 2 :=
  validate_keeps_jitters_independent jitConfig [] rfl

/-- Claim C8: the log level produced by `configure_logging` follows the
precedence general over invalid over valid (the three flags overwrite
log_level in sequence, so the last truthy one in that order wins), and
with none of the three flags truthy the level is left as it was (90 on
a fresh `Config`) and the logger gets no handlers — effectively
disabled. -/
theorem log_level_precedence (c : Config) :
    ((configure_logging c).1.log_level =
      if truthy c.log_general then GENERAL_EVENTS
      else if truthy c.log_invalid then CREDENTIAL_EVENTS
      else if truthy c.log_valid then VALID_CREDENTIALS
      else c.log_level) ∧
    (truthy c.log_valid = false → truthy c.log_invalid = false →
      truthy c.log_general = false →
      (configure_logging c).1.log_level = c.log_level ∧
      (configure_logging c).2.level = c.log_level ∧
      (configure_logging c).2.handlers = []) := by
  unfold configure_logging chosenLevel
  by_cases hv : truthy c.log_valid <;> by_cases hi : truthy c.log_invalid <;>
    by_cases hg : truthy c.log_general <;>
      simp [hv, hi, hg] <;> split <;> simp

/-- Witness for C8: on the default `Config` (no level flags) the level
stays 90 and the logger has no handlers. -/
theorem log_level_precedence_witness :
    (configure_logging defaultConfig).1.log_level = 90 ∧
    (configure_logging defaultConfig).2.level = 90 ∧
    (configure_logging defaultConfig).2.handlers = [] :=
  (log_level_precedence defaultConfig).2 rfl rfl rfl

/-- Claim C9: when some level flag is truthy but no destination flag
is, `configure_logging` attaches exactly one stdout handler carrying no
level of its own (stdout is the implicit default destination); when
destination flags are truthy it attaches exactly one handler per
selected destination, in the order file, stdout, stderr, each set to
the chosen level. -/
theorem logging_destination_handlers (c : Config)
    (hset : (truthy c.log_valid || truthy c.log_invalid || truthy c.log_general) = true) :
    (truthy c.log_file = false → truthy c.log_stdout = false →
      truthy c.log_stderr = false →
      (configure_logging c).2.handlers =
        [{ dest := Dest.toStdout, level := Option.none, hasFormatter := true }]) ∧
    ((truthy c.log_file || truthy c.log_stdout || truthy c.log_stderr) = true →
      (configure_logging c).2.handlers =
        (if truthy c.log_file then
          [({ dest := Dest.file c.log_file, level := some (chosenLevel c),
              hasFormatter := true } : Handler)]
         else [])
        ++ (if truthy c.log_stdout then
          [({ dest := Dest.toStdout, level := some (chosenLevel c),
              hasFormatter := true } : Handler)]
         else [])
        ++ (if truthy c.log_stderr then
          [({ dest := Dest.toStderr, level := some (chosenLevel c),
              hasFormatter := true } : Handler)]
         else [])) := by
  unfold configure_logging
  rw [hset]
  constructor
  · intro h1 h2 h3
    simp [h1, h2, h3]
  · intro h
    simp [h]

/-- Witness for C9: a `Config` logging general events with no
destination flag gets the single fallback stdout handler, with no
handler-level set. -/
theorem logging_destination_handlers_witness :
    (configure_logging { okConfig with log_general := .pyBool true }).2.handlers =
      [{ dest := Dest.toStdout, level := Option.none, hasFormatter := true }] :=
  (logging_destination_handlers { okConfig with log_general := .pyBool true } rfl).1
    rfl rfl rfl
